import Mathlib

/-!
Verification of the exa-mcp MCP server (src/index.ts and the SEO outline
tool module) against its natural-language specification.

JavaScript strings are modelled as lists of characters (`Str`), and the
JavaScript truthiness of strings (the empty string is falsy) is modelled
explicitly.  Environment variables and request headers are `Option Str`
(`none` models an unset variable / absent header).  The upstream Exa API
is an external collaborator: each handler takes the outcome of its single
upstream call as an explicit parameter (resolution with a possibly
malformed body, or rejection with an error message, which models network
failures, non-2xx responses and thrown errors alike).
-/

namespace ExaMcp

/-- JavaScript strings, modelled as lists of characters. -/
abbrev Str := List Char

/-- JavaScript truthiness of an optional string: `undefined` (absent) and
the empty string are falsy. -/
def jsTruthy : Option Str → Bool
  | none => false
  | some s => !s.isEmpty

/-- Whitespace characters recognised by the JavaScript `trim`, `split(/\s+/)`
and sentence-splitting regexes used in the source (space, tab, newline,
carriage return, vertical tab, form feed). -/
def isJsWhitespace (c : Char) : Bool :=
  c == ' ' || c == '\t' || c == '\n' || c == '\r' || c == '\x0b' || c == '\x0c'

/-- JavaScript `String.prototype.trim`: drop whitespace from both ends. -/
def trim (l : Str) : Str :=
  (l.dropWhile isJsWhitespace).rdropWhile isJsWhitespace

/-- Splitting worker: cut the list at every character satisfying `p`
(the separator is dropped), accumulating the current chunk reversed. -/
def splitOnPredAux (p : Char → Bool) : Str → Str → List Str
  | [], acc => [acc.reverse]
  | c :: rest, acc =>
    if p c then acc.reverse :: splitOnPredAux p rest []
    else splitOnPredAux p rest (c :: acc)

/-- JavaScript `split` on a single-character class regex such as `/[:\-|–—]/`:
cut at every separator character, keeping empty chunks. -/
def splitOnPred (p : Char → Bool) (l : Str) : List Str :=
  splitOnPredAux p l []

/-- JavaScript `keywords.split(",")` from the seo tool handler. -/
def splitOnComma (l : Str) : List Str :=
  splitOnPred (fun c => c == ',') l

/-- Split a string into its lines (used to state properties of the
generated markdown outline). -/
def splitLines (l : Str) : List Str :=
  splitOnPred (fun c => c == '\n') l

/-- Sentence punctuation of the regex `/[.!?]\s+/`. -/
def isSentencePunct (c : Char) : Bool :=
  c == '.' || c == '!' || c == '?'

/-- Whether a string starts with a JavaScript whitespace character. -/
def headIsWs : Str → Bool
  | [] => false
  | c :: _ => isJsWhitespace c

/-- Worker for JavaScript `split(/[.!?]\s+/)`: cut whenever a punctuation
character is immediately followed by whitespace, consuming the punctuation
character and the maximal whitespace run.  The maximal-run consumption is
realised one character at a time through the `skip` flag (set right after
a cut), keeping the recursion structural. -/
def splitSentencesAux : Str → Str → Bool → List Str
  | [], acc, _ => [acc.reverse]
  | c :: rest, acc, skip =>
    if skip && isJsWhitespace c then
      splitSentencesAux rest acc true
    else if isSentencePunct c && headIsWs rest then
      acc.reverse :: splitSentencesAux rest [] true
    else
      splitSentencesAux rest (c :: acc) false

/-- JavaScript `allText.split(/[.!?]\s+/)` from the seo tool module. -/
def splitSentences (l : Str) : List Str :=
  splitSentencesAux l [] false

/-- Worker for JavaScript `split(/\s+/)`: every maximal nonempty whitespace
run is a separator; the `skip` flag consumes the rest of a run after a cut. -/
def splitWsRunsAux : Str → Str → Bool → List Str
  | [], acc, _ => [acc.reverse]
  | c :: rest, acc, skip =>
    if skip && isJsWhitespace c then
      splitWsRunsAux rest acc true
    else if isJsWhitespace c then
      acc.reverse :: splitWsRunsAux rest [] true
    else
      splitWsRunsAux rest (c :: acc) false

/-- JavaScript `allText.split(/\s+/)` from the keyword-frequency analysis. -/
def splitWsRuns (l : Str) : List Str :=
  splitWsRunsAux l [] false

/-- JavaScript `Array.prototype.join(sep)`. -/
def joinSep (sep : Str) : List Str → Str
  | [] => []
  | [x] => x
  | x :: xs => x ++ sep ++ joinSep sep xs

/-- `join("\n")`. -/
def joinNl (l : List Str) : Str :=
  joinSep ['\n'] l

/-- `join(" ")`. -/
def joinSpace (l : List Str) : Str :=
  joinSep [' '] l

/-- One step of building a JavaScript `Set` kept as an insertion-ordered
list: add the element unless already present. -/
def insertUnique (l : List Str) (x : Str) : List Str :=
  if l.contains x then l else l ++ [x]

/-- JavaScript `Array.from(new Set(xs))`: deduplicate, keeping the first
occurrence order. -/
def dedupe (l : List Str) : List Str :=
  l.foldl insertUnique []

/-- JavaScript `toLowerCase` (modelled characterwise with `Char.toLower`). -/
def toLowerStr (l : Str) : Str :=
  l.map Char.toLower

/-- `Array.prototype.map` with the element index (JavaScript `forEach` with
`index` in the outline generator). -/
def mapWithIndex (f : Nat → α → β) : Nat → List α → List β
  | _, [] => []
  | i, a :: t => f i a :: mapWithIndex f (i + 1) t

/-! ## The network-mode HTTP surface (src/index.ts, `--sse` branch) -/

/-- Outcome of the `authenticate` middleware (src/index.ts lines 40-52):
a 401 response with a body, or control passing to the route handler. -/
inductive AuthOutcome where
  | unauthorized (body : Str)
  | proceed
deriving DecidableEq

/-- The `authenticate` middleware of src/index.ts lines 40-52.  `apiToken`
is the `API_TOKEN` environment variable, `authorization` the request's
`authorization` header; JavaScript falsiness (`!API_TOKEN`, `!token`)
treats an absent value and the empty string alike. -/
def authenticate (apiToken : Option Str) (authorization : Option Str) : AuthOutcome :=
  match apiToken with
  | none => .unauthorized ("Unauthorized: No API_TOKEN!".toList)
  | some t =>
    if t.isEmpty then .unauthorized ("Unauthorized: No API_TOKEN!".toList)
    else
      match authorization with
      | none => .unauthorized ("Unauthorized: No request token!".toList)
      | some h =>
        if h.isEmpty then .unauthorized ("Unauthorized: No request token!".toList)
        else if h = ("Bearer ".toList) ++ t then .proceed
        else .unauthorized ("Unauthorized: Invalid token!".toList)

/-- HTTP methods routed by the Polka app in the source. -/
inductive Method where
  | get
  | post
deriving DecidableEq

/-- An incoming HTTP request, reduced to the data the source inspects:
method, path, `authorization` header and the `sessionId` query parameter. -/
structure Request where
  method : Method
  path : Str
  authorization : Option Str
  sessionId : Option Str
deriving DecidableEq

/-- The server's response, reduced to what the source produces: a 401 from
the middleware, a 400 from the `/messages` route, a newly established SSE
session, a message forwarded to a live session, or no matching route. -/
inductive Response where
  | unauthorized (body : Str)
  | badRequest (body : Str)
  | sseEstablished (sessionId : Str)
  | messageHandled (sessionId : Str)
  | notFound
deriving DecidableEq

/-- Whether the optional `sessionId` query parameter names a live session
(`transports.get(sessionId)` finding a transport). -/
def sessionLive (transports : List Str) : Option Str → Bool
  | some sid => transports.contains sid
  | none => false

/-- One request through the Polka app of src/index.ts lines 38-71.  The
`authenticate` middleware is registered with `app.use`, so it runs on
every request before any route handler.  `GET /sse` establishes a session
with the freshly generated id `freshId`; `POST /messages` forwards to the
live session named by the `sessionId` query parameter, else responds 400.
Returns the response and the updated live-session map. -/
def handleRequest (apiToken : Option Str) (transports : List Str) (freshId : Str)
    (req : Request) : Response × List Str :=
  match authenticate apiToken req.authorization with
  | .unauthorized body => (.unauthorized body, transports)
  | .proceed =>
    match req.method with
    | .get =>
      if req.path = ("/sse".toList) then (.sseEstablished freshId, freshId :: transports)
      else (.notFound, transports)
    | .post =>
      if req.path = ("/messages".toList) then
        match req.sessionId with
        | some sid =>
          if transports.contains sid then (.messageHandled sid, transports)
          else (.badRequest ("No transport found for sessionId".toList), transports)
        | none => (.badRequest ("No transport found for sessionId".toList), transports)
      else (.notFound, transports)

/-- The `res.on("close")` handler of src/index.ts lines 57-59: the session
is deleted from the live-session map. -/
def closeSession (transports : List Str) (sid : Str) : List Str :=
  transports.erase sid

/-- The startup check of src/index.ts lines 9-12: if `EXA_API_KEY` is
falsy the module throws, so the process exits before serving anything. -/
def startupCheck (envExaApiKey : Option Str) : Except Str Unit :=
  if jsTruthy envExaApiKey then .ok ()
  else .error ("EXA_API_KEY environment variable is required".toList)

/-! ## Tool results and upstream data -/

/-- A content block of a tool result; the source only ever produces the
`text` variant, so the tag is kept as the literal string written there. -/
structure ContentBlock where
  type : Str
  text : Str
deriving DecidableEq

/-- A tool handler's result: content blocks plus the `isError` flag, which
the source omits on success (JavaScript `undefined`, i.e. `false`). -/
structure ToolResult where
  content : List ContentBlock
  isError : Bool
deriving DecidableEq

/-- The `{ type: "text", text: ... }` blocks the handlers build. -/
def textBlock (s : Str) : ContentBlock :=
  ⟨("text".toList), s⟩

/-- One Exa search result, at the shape the source reads (`title`, `text`;
`url` is carried along per the upstream interface). -/
structure ExaSearchResult where
  title : Str
  text : Str
  url : Str
deriving DecidableEq

/-! ## Tool registry (modelled from the spec) -/

/-- A tool descriptor of the registry, with the fields the registry
contract concerns (the schema and handler are kept by the real registry
but play no role in registration/discovery). -/
structure ToolDescriptor where
  id : Str
  name : Str
  description : Str
  enabled : Bool
deriving DecidableEq

/-- Modelled from the spec: the tool registry module (imported by
src/index.ts as `./tools/index` and by the seo tool as `./config`, absent
from src/).  "register(descriptor) adds a descriptor under its id". -/
def register (r : List ToolDescriptor) (d : ToolDescriptor) : List ToolDescriptor :=
  r ++ [d]

/-- Modelled from the spec: "list() returns all descriptors whose enabled
is true unless an explicit allow-set is configured, in which case only ids
present in that allow-set are returned regardless of their enabled flag." -/
def listTools (r : List ToolDescriptor) (allowSet : Option (List Str)) : List ToolDescriptor :=
  match allowSet with
  | none => r.filter (fun d => d.enabled)
  | some allow => r.filter (fun d => allow.contains d.id)

/-! ## The exa_search tool: schema validation and handler -/

/-- Raw (pre-validation) arguments of an `exa_search` invocation; every
field may be absent.  Numbers are modelled as integers. -/
structure RawExaSearchArgs where
  query : Option Str
  category : Option Str
  type : Option Str
  num_results : Option Int
  start_published_date : Option Str
  end_published_date : Option Str
  include_domains : Option (List Str)
  exclude_domains : Option (List Str)
  live_crawl : Option Str
  max_content_length : Option Int
deriving DecidableEq

/-- Validated `exa_search` arguments, with schema defaults applied. -/
structure ExaSearchArgs where
  query : Str
  category : Str
  type : Str
  num_results : Int
  start_published_date : Option Str
  end_published_date : Option Str
  include_domains : Option (List Str)
  exclude_domains : Option (List Str)
  live_crawl : Str
  max_content_length : Int
deriving DecidableEq

/-- The `category` enum of the schema (src/index.ts lines 113-127). -/
def exaSearchCategories : List Str :=
  [("general".toList), ("company".toList), ("research paper".toList), ("news".toList),
   ("pdf".toList), ("github".toList), ("tweet".toList), ("personal site".toList),
   ("linkedin profile".toList), ("financial report".toList)]

/-- The `type` enum of the schema. -/
def exaSearchTypes : List Str :=
  [("auto".toList), ("keyword".toList), ("neural".toList)]

/-- The `live_crawl` enum of the schema. -/
def exaLiveCrawlValues : List Str :=
  [("always".toList), ("fallback".toList)]

/-- Numeric value of a digit character. -/
def digitVal (c : Char) : Nat :=
  c.toNat - 48

/-- Gregorian leap year. -/
def isLeapYear (y : Nat) : Bool :=
  (y % 4 == 0 && y % 100 != 0) || y % 400 == 0

/-- Days in a month of a given year. -/
def daysInMonth (y m : Nat) : Nat :=
  if m == 2 then (if isLeapYear y then 29 else 28)
  else if m == 4 || m == 6 || m == 9 || m == 11 then 30
  else 31

/-- The `z.string().date()` check of the schema: a calendar-valid
`YYYY-MM-DD` string. -/
def isDateString (s : Str) : Bool :=
  match s with
  | [y1, y2, y3, y4, s1, m1, m2, s2, d1, d2] =>
    y1.isDigit && y2.isDigit && y3.isDigit && y4.isDigit &&
    s1 == '-' && m1.isDigit && m2.isDigit && s2 == '-' && d1.isDigit && d2.isDigit &&
    (let y := ((digitVal y1 * 10 + digitVal y2) * 10 + digitVal y3) * 10 + digitVal y4
     let m := digitVal m1 * 10 + digitVal m2
     let d := digitVal d1 * 10 + digitVal d2
     1 ≤ m && m ≤ 12 && 1 ≤ d && d ≤ daysInMonth y m)
  | _ => false

/-- Validation issues for the required `query` string. -/
def queryIssue (raw : RawExaSearchArgs) : List Str :=
  match raw.query with
  | none => [("query".toList)]
  | some _ => []

/-- Validation issues for the `category` enum. -/
def categoryIssue (raw : RawExaSearchArgs) : List Str :=
  match raw.category with
  | none => []
  | some c => if exaSearchCategories.contains c then [] else [("category".toList)]

/-- Validation issues for the `type` enum. -/
def typeIssue (raw : RawExaSearchArgs) : List Str :=
  match raw.type with
  | none => []
  | some t => if exaSearchTypes.contains t then [] else [("type".toList)]

/-- Validation issues for `num_results` (`min(1).max(100)`,
src/index.ts lines 134-139). -/
def numResultsIssue (raw : RawExaSearchArgs) : List Str :=
  match raw.num_results with
  | none => []
  | some n => if 1 ≤ n ∧ n ≤ 100 then [] else [("num_results".toList)]

/-- Validation issues for `start_published_date`. -/
def startDateIssue (raw : RawExaSearchArgs) : List Str :=
  match raw.start_published_date with
  | none => []
  | some d => if isDateString d then [] else [("start_published_date".toList)]

/-- Validation issues for `end_published_date`. -/
def endDateIssue (raw : RawExaSearchArgs) : List Str :=
  match raw.end_published_date with
  | none => []
  | some d => if isDateString d then [] else [("end_published_date".toList)]

/-- Validation issues for the `live_crawl` enum. -/
def liveCrawlIssue (raw : RawExaSearchArgs) : List Str :=
  match raw.live_crawl with
  | none => []
  | some v => if exaLiveCrawlValues.contains v then [] else [("live_crawl".toList)]

/-- All validation issues of a raw argument set, in schema field order. -/
def allIssues (raw : RawExaSearchArgs) : List Str :=
  queryIssue raw ++ categoryIssue raw ++ typeIssue raw ++ numResultsIssue raw ++
    startDateIssue raw ++ endDateIssue raw ++ liveCrawlIssue raw

/-- Validation of `exa_search` arguments against the zod schema of
src/index.ts lines 111-168: collect the field-level issues; when none,
produce the validated arguments with the schema defaults applied
(`category := "general"`, `type := "auto"`, `num_results := 5`,
`live_crawl := "always"`, `max_content_length := 3000`). -/
def validateExaSearchArgs (raw : RawExaSearchArgs) :
    Except (List Str) ExaSearchArgs :=
  if allIssues raw = [] then
    .ok ⟨raw.query.getD [], raw.category.getD ("general".toList),
         raw.type.getD ("auto".toList), raw.num_results.getD 5,
         raw.start_published_date, raw.end_published_date,
         raw.include_domains, raw.exclude_domains,
         raw.live_crawl.getD ("always".toList), raw.max_content_length.getD 3000⟩
  else .error (allIssues raw)

/-- Outcome of the single upstream call `exa.searchAndContents` made by the
`exa_search` handler: resolution with a body (whose `results` array may be
missing, modelling a malformed body), or rejection with an error message
(network failure, non-2xx response or a thrown error). -/
inductive ExaUpstreamOutcome where
  | resolved (results : Option (List ExaSearchResult))
  | rejected (message : Str)
deriving DecidableEq

/-- Rendering of one search result by the js-yaml `dump` call (external
collaborator; its exact quoting rules are not reproduced). -/
def dumpResult (r : ExaSearchResult) : Str :=
  ("- title: ".toList) ++ r.title ++ ('\n' :: ("  text: ".toList)) ++ r.text ++
    ('\n' :: ("  url: ".toList)) ++ r.url

/-- The js-yaml `dump(result.results)` call. -/
def dump (results : List ExaSearchResult) : Str :=
  joinNl (results.map dumpResult) ++ ['\n']

/-- The message of the TypeError thrown (and caught by the handler's
`catch`) when a malformed upstream body has no `results` array and the
source reads `result.results.length`.  The exact engine wording is
immaterial to the claims. -/
def typeErrorMsg : Str :=
  "TypeError: Cannot read properties of undefined".toList

/-- The `exa_search` handler of src/index.ts lines 169-219.  The whole
upstream interaction sits in a `try`/`catch`: a rejected upstream call is
answered with the error message and `isError: true`; a resolved call with
a missing `results` array throws on `.length` inside the `try` and is
answered the same way; zero results produce `"(no search results)"`; and
otherwise the results are dumped between marker lines.  `args` is carried
for fidelity (the source builds the upstream request from it, which is
what `upstream` is the outcome of). -/
def exaSearchHandler (_args : ExaSearchArgs) (upstream : ExaUpstreamOutcome) : ToolResult :=
  match upstream with
  | .rejected msg => ⟨[textBlock msg], true⟩
  | .resolved none => ⟨[textBlock typeErrorMsg], true⟩
  | .resolved (some results) =>
    if results.isEmpty then ⟨[textBlock ("(no search results)".toList)], false⟩
    else
      ⟨[textBlock (joinNl [("[search result start]".toList), dump results,
          ("[search result end]".toList)])], false⟩

/-- Reply of an invocation as seen by the client: a field-level validation
error, or the handler's tool result. -/
inductive InvocationReply where
  | validationError (fields : List Str)
  | toolResult (r : ToolResult)
deriving DecidableEq

/-- Trace of one invocation: the reply, whether the handler ran, and how
many upstream API calls were made. -/
structure InvokeOutcome where
  reply : InvocationReply
  handlerEntered : Bool
  apiCalls : Nat
deriving DecidableEq

/-- Modelled from the spec: the protocol server's invocation dispatch
(implemented by the MCP SDK, not under src/) — arguments are "validated
against schema before dispatch; invalid requests never reach the handler",
and a valid invocation runs the handler, whose single upstream call is the
one API call made. -/
def invokeExaSearch (raw : RawExaSearchArgs) (upstream : ExaUpstreamOutcome) :
    InvokeOutcome :=
  match validateExaSearchArgs raw with
  | .error issues => ⟨.validationError issues, false, 0⟩
  | .ok args => ⟨.toolResult (exaSearchHandler args upstream), true, 1⟩

/-! ## The seo_outline_generator tool module (src/unnamed/part_000) -/

/-- The comma-separated keyword parsing of the seo handler (lines 273-279):
split on commas, trim each piece, drop empties; a falsy (empty) `keywords`
string yields the empty array directly. -/
def parseKeywords (keywords : Str) : List Str :=
  if keywords.isEmpty then []
  else ((splitOnComma keywords).map trim).filter (fun k => !k.isEmpty)

/-- The search query sent upstream (lines 301-303): the topic alone when no
keywords were parsed, else the topic followed by the space-joined keywords. -/
def searchQuery (topic : Str) (keywordArray : List Str) : Str :=
  if keywordArray.isEmpty then topic
  else topic ++ (" ".toList) ++ joinSpace keywordArray

/-- Separator class of the title-splitting regex `/[:\-|–—]/`. -/
def isHeadingSep (c : Char) : Bool :=
  c == ':' || c == '-' || c == '|' || c == '–' || c == '—'

/-- `extractCommonPhrases` (lines 65-78): sentences of the joined texts,
filtered to lengths in (10, 100), trimmed, with question-bearing ones
dropped, deduplicated, first 15. -/
def extractCommonPhrases (contentTexts : List Str) : List Str :=
  let allText := joinSpace contentTexts
  let sentences := splitSentences allText
  let phrases :=
    ((sentences.filter (fun s => 10 < s.length && s.length < 100)).map trim).filter
      (fun s => !s.contains '?')
  (dedupe phrases).take 15

/-- The question words of `extractQuestions`. -/
def questionWords : List Str :=
  [("what".toList), ("why".toList), ("how".toList), ("when".toList),
   ("where".toList), ("who".toList), ("which".toList)]

/-- `extractQuestions` (lines 85-113): sentences that contain `?` or start
(lowercased) with a question word, of length in (10, 100), trimmed and
suffixed with `?` when missing, deduplicated, first 10. -/
def extractQuestions (contentTexts : List Str) : List Str :=
  let allText := joinSpace contentTexts
  let sentences := splitSentences allText
  let questions :=
    (sentences.filter (fun s =>
        (s.contains '?' || questionWords.any (fun w => w.isPrefixOf (toLowerStr s))) &&
          (10 < s.length && s.length < 100))).map
      (fun q =>
        let f := trim q
        if ("?".toList).isSuffixOf f then f else f ++ ("?".toList))
  (dedupe questions).take 10

/-- `word.replace(/[^a-zA-Z0-9]/g, "")` of the frequency analysis. -/
def cleanWord (w : Str) : Str :=
  w.filter (fun c => c.isAlpha || c.isDigit)

/-- One `wordFrequency[w] = (wordFrequency[w] || 0) + 1` step on an
insertion-ordered association list. -/
def bump : List (Str × Nat) → Str → List (Str × Nat)
  | [], k => [(k, 1)]
  | (a, n) :: t, k => if a = k then (a, n + 1) :: t else (a, n) :: bump t k

/-- Natural number denoted by a digit string. -/
def strToNat (s : Str) : Nat :=
  s.foldl (fun n c => n * 10 + digitVal c) 0

/-- Whether a key is a JavaScript array-index-like object key (canonical
digit string below 2^32 - 1); such keys come first in `Object.entries`. -/
def isArrayIndexKey (s : Str) : Bool :=
  match s with
  | [] => false
  | c :: rest =>
    (s.all Char.isDigit) && (c != '0' || rest.isEmpty) && strToNat s < 4294967295

/-- Stable ascending insertion by numeric key value. -/
def insertByKeyAsc (x : Str × Nat) : List (Str × Nat) → List (Str × Nat)
  | [] => [x]
  | y :: t => if strToNat x.1 < strToNat y.1 then x :: y :: t else y :: insertByKeyAsc x t

/-- Sort entries ascending by numeric key value. -/
def sortByKeyAsc : List (Str × Nat) → List (Str × Nat)
  | [] => []
  | a :: t => insertByKeyAsc a (sortByKeyAsc t)

/-- JavaScript `Object.entries` on the frequency object: array-index-like
keys first in ascending numeric order, then the rest in insertion order. -/
def objectEntries (m : List (Str × Nat)) : List (Str × Nat) :=
  sortByKeyAsc (m.filter (fun e => isArrayIndexKey e.1)) ++
    m.filter (fun e => !isArrayIndexKey e.1)

/-- Stable insertion keeping larger frequencies first (the JavaScript
`sort((a, b) => b.frequency - a.frequency)`, a stable sort). -/
def insertByFreqDesc (x : Str × Nat) : List (Str × Nat) → List (Str × Nat)
  | [] => [x]
  | y :: t => if y.2 ≤ x.2 then x :: y :: t else y :: insertByFreqDesc x t

/-- Stable sort by descending frequency. -/
def sortByFreqDesc : List (Str × Nat) → List (Str × Nat)
  | [] => []
  | a :: t => insertByFreqDesc a (sortByFreqDesc t)

/-- `analyzeKeywordFrequency` (lines 120-147): count words (lowercased,
stripped to alphanumerics, longer than 3) and return the 20 most frequent. -/
def analyzeKeywordFrequency (contentTexts : List Str) : List (Str × Nat) :=
  let allText := toLowerStr (joinSpace contentTexts)
  let words := splitWsRuns allText
  let wordFrequency :=
    words.foldl (fun m w =>
      let cw := cleanWord w
      if 3 < cw.length then bump m cw else m) []
  (sortByFreqDesc (objectEntries wordFrequency)).take 20

/-- The analysis record returned by `analyzeSearchResults`. -/
structure KeyInsights where
  potentialHeadings : List Str
  commonPhrases : List Str
  questions : List Str
  keywordFrequency : List (Str × Nat)
  rawResults : List ExaSearchResult
deriving DecidableEq

/-- `analyzeSearchResults` (lines 17-58): headings are the trimmed parts of
the titles split on `/[:\-|–—]/` whose length lies in (3, 100), collected
into an insertion-ordered set; phrases, questions and keyword frequencies
come from the content texts; the first three raw results are kept. -/
def analyzeSearchResults (results : List ExaSearchResult) : KeyInsights :=
  let titles := results.map (fun r => r.title)
  let contentTexts := results.map (fun r => r.text)
  let potentialHeadings :=
    titles.foldl (fun acc title =>
      ((splitOnPred isHeadingSep title).map trim).foldl
        (fun acc2 part =>
          if 3 < part.length && part.length < 100 then insertUnique acc2 part else acc2)
        acc) []
  ⟨potentialHeadings, extractCommonPhrases contentTexts, extractQuestions contentTexts,
   analyzeKeywordFrequency contentTexts, results.take 3⟩

/-- The outline's first line (line 166). -/
def titleLine (topic : Str) : Str :=
  ("# Comprehensive SEO Content Outline: ".toList) ++ topic

/-- `keywordsSection` (lines 175-180): computed by the generator but not
joined into the outline (its use is commented out at line 237). -/
def keywordsSection (targetKeywords : List Str) : Str :=
  joinNl ([("## Target Keywords".toList), []] ++
    targetKeywords.map (fun k => ("- ".toList) ++ k) ++ [[]])

/-- `introductionSection` (lines 183-190). -/
def introductionSection (topic : Str) : Str :=
  joinNl [("## Introduction".toList), [],
    ("- Brief overview of ".toList) ++ topic,
    ("- Why ".toList) ++ topic ++ (" is important/relevant".toList),
    ("- What readers will learn from this content".toList), []]

/-- `faqSection` (lines 212-221): computed by the generator as a line list
but not joined into the outline (its use is commented out at line 240). -/
def faqSection (questions : List Str) : List Str :=
  [("## Frequently Asked Questions".toList), []] ++
    (questions.take 5).flatMap (fun q =>
      [("### ".toList) ++ q, [], ("- Answer to address: ".toList) ++ q, []])

/-- `conclusionSection` (lines 224-231). -/
def conclusionSection (topic : Str) : Str :=
  joinNl [("## Conclusion".toList), [],
    ("- Summary of key points about ".toList) ++ topic,
    ("- Final thoughts on ".toList) ++ topic,
    ("- Call to action or next steps".toList), []]

/-- The attribution line ending the outline (line 245). -/
def attributionLine (topic : Str) : Str :=
  ("*This SEO outline was generated for the topic: \"".toList) ++ topic ++ ("\"*".toList)

/-- The main content sections (lines 193-209): one section per heading
(first five), each with up to three bullet phrases taken from the common
phrases at offset `index * 3`. -/
def mainSectionsOf (ki : KeyInsights) : List Str :=
  mapWithIndex (fun i heading =>
      joinNl ([("## ".toList) ++ heading, []] ++
        ((ki.commonPhrases.drop (i * 3)).take 3).map (fun ph => ("- ".toList) ++ ph) ++
        [[]]))
    0 (ki.potentialHeadings.take 5)

/-- The component list joined (with `"\n"`) into the final outline
(lines 234-246); the keywords and FAQ sections are not among the
components, their lines being commented out in the source. -/
def outlineComponents (topic : Str) (ki : KeyInsights) : List Str :=
  [titleLine topic, []] ++ [introductionSection topic] ++ mainSectionsOf ki ++
    [conclusionSection topic, [], ("---".toList), [], attributionLine topic]

/-- `generateSEOOutline` (lines 157-249).  The target keywords (provided
keywords, else top five frequent words) and the keywords/FAQ sections are
computed as in the source, but the assembled outline omits both sections. -/
def generateSEOOutline (topic : Str) (ki : KeyInsights) (keywords : List Str) : Str :=
  let targetKeywords :=
    if keywords.isEmpty then (ki.keywordFrequency.take 5).map (fun kf => kf.1)
    else keywords
  let _keywordsSection := keywordsSection targetKeywords
  let _faqSection := faqSection ki.questions
  joinNl (outlineComponents topic ki)

/-- Body of the seo tool's upstream response (`response.data`): its
`results` field may be missing (malformed body). -/
structure SeoResponseData where
  results : Option (List ExaSearchResult)
deriving DecidableEq

/-- Outcome of the seo handler's single `axios.post` call: resolution
whose `data` may be falsy or malformed, or rejection (network failure,
non-2xx response, or any error thrown inside the `try`). -/
inductive SeoUpstreamOutcome where
  | resolved (data : Option SeoResponseData)
  | rejected (message : Str)
deriving DecidableEq

/-- The two text blocks returned when the upstream response is empty or
invalid (lines 339-350); note the source sets no `isError` flag here. -/
def noResultsContent : List ContentBlock :=
  [textBlock ("Unable to generate an SEO outline. No search results were found for the given topic.".toList),
   textBlock ("Please try a different topic or check your API configuration.".toList)]

/-- The `seo_outline_generator` handler (lines 264-391).  Keywords are
parsed first; a falsy `EXA_API_KEY` yields a missing-key text result (with
no `isError` flag, as in the source); a rejected upstream call is caught
and answered with `isError: true`; a falsy `data`, a missing `results`
array or zero results yield the two-block no-results reply; otherwise the
results are analyzed and the outline returned as a single text block. -/
def seoHandler (apiKey : Option Str) (upstream : SeoUpstreamOutcome)
    (topic : Str) (keywords : Str) : ToolResult :=
  let keywordArray := parseKeywords keywords
  if !jsTruthy apiKey then
    ⟨[textBlock ("Error: Missing Exa API key. Please configure the API key in the settings.".toList)], false⟩
  else
    match upstream with
    | .rejected _ =>
      ⟨[textBlock ("An error occurred while generating the SEO outline. Please try again later.".toList)], true⟩
    | .resolved data =>
      match data with
      | none => ⟨noResultsContent, false⟩
      | some d =>
        match d.results with
        | none => ⟨noResultsContent, false⟩
        | some results =>
          if results.isEmpty then ⟨noResultsContent, false⟩
          else
            ⟨[textBlock (generateSEOOutline topic (analyzeSearchResults results) keywordArray)], false⟩

/-! ## Theorems -/

/-- Claim C6: the auth check on each incoming request is the four-step
state machine, in order: no configured `API_TOKEN` → 401; no
`Authorization` credential → 401; credential not exactly equal to
`Bearer <secret>` → 401; otherwise the request proceeds. -/
theorem authenticate_state_machine (cfg hdr : Option Str) :
    (jsTruthy cfg = false →
      authenticate cfg hdr = .unauthorized ("Unauthorized: No API_TOKEN!".toList))
    ∧ (jsTruthy cfg = true → jsTruthy hdr = false →
      authenticate cfg hdr = .unauthorized ("Unauthorized: No request token!".toList))
    ∧ (∀ t h, cfg = some t → hdr = some h → jsTruthy cfg = true → jsTruthy hdr = true →
      h ≠ ("Bearer ".toList) ++ t →
      authenticate cfg hdr = .unauthorized ("Unauthorized: Invalid token!".toList))
    ∧ (∀ t, cfg = some t → jsTruthy cfg = true → hdr = some (("Bearer ".toList) ++ t) →
      authenticate cfg hdr = .proceed) := by
  refine ⟨?_, ?_, ?_, ?_⟩
  · intro hcfg
    cases cfg with
    | none => rfl
    | some t =>
      simp only [jsTruthy, Bool.not_eq_false'] at hcfg
      simp [authenticate, hcfg]
  · intro hcfg hhdr
    cases cfg with
    | none => simp [jsTruthy] at hcfg
    | some t =>
      simp only [jsTruthy, Bool.not_eq_true'] at hcfg
      cases hdr with
      | none => simp [authenticate, hcfg]
      | some h =>
        simp only [jsTruthy, Bool.not_eq_false'] at hhdr
        simp [authenticate, hcfg, hhdr]
  · intro t h hcfg hhdr htr hhtr hne
    subst hcfg; subst hhdr
    simp only [jsTruthy, Bool.not_eq_true'] at htr hhtr
    simp [authenticate, htr, hhtr]
    exact hne
  · intro t hcfg htr hhdr
    subst hcfg; subst hhdr
    simp only [jsTruthy, Bool.not_eq_true'] at htr
    simp [authenticate, htr]

/-- Claim C6 witness: the four outcomes at concrete configurations. -/
theorem authenticate_state_machine_w :
    authenticate none (some ("x".toList))
        = .unauthorized ("Unauthorized: No API_TOKEN!".toList)
    ∧ authenticate (some ("s".toList)) none
        = .unauthorized ("Unauthorized: No request token!".toList)
    ∧ authenticate (some ("s".toList)) (some ("Bearer t".toList))
        = .unauthorized ("Unauthorized: Invalid token!".toList)
    ∧ authenticate (some ("s".toList)) (some ("Bearer s".toList)) = .proceed :=
  ⟨(authenticate_state_machine none (some ("x".toList))).1 (by decide),
   (authenticate_state_machine (some ("s".toList)) none).2.1 (by decide) (by decide),
   (authenticate_state_machine (some ("s".toList)) (some ("Bearer t".toList))).2.2.1
     _ _ rfl rfl (by decide) (by decide) (by decide),
   (authenticate_state_machine (some ("s".toList)) (some ("Bearer s".toList))).2.2.2
     _ rfl (by decide) (by decide)⟩

/-- Claim C1 counterexample: with `API_TOKEN` configured and session
`"abc"` live, a `POST /messages` carrying that very sessionId is rejected
with 401 when it has no `Authorization` header, and is processed when it
carries the valid bearer credential — the response does depend on the
`Authorization` header, because `app.use(authenticate)` registers the
middleware globally, not only on `GET /sse`. -/
theorem post_messages_bearer_dependence_cex :
    (handleRequest (some ("secret".toList)) [("abc".toList)] ("f".toList)
        ⟨.post, ("/messages".toList), none, some ("abc".toList)⟩).1
      = .unauthorized ("Unauthorized: No request token!".toList)
    ∧ (handleRequest (some ("secret".toList)) [("abc".toList)] ("f".toList)
        ⟨.post, ("/messages".toList), some ("Bearer secret".toList), some ("abc".toList)⟩).1
      = .messageHandled ("abc".toList)
    ∧ (handleRequest (some ("secret".toList)) [("abc".toList)] ("f".toList)
        ⟨.post, ("/messages".toList), none, some ("abc".toList)⟩).1
      ≠ .messageHandled ("abc".toList) := by
  decide

/-- Claim C1 amended: the bearer-token middleware runs on every request,
`POST /messages` included; a `POST /messages` that fails authentication
gets the middleware's 401, and one that passes it is processed iff its
sessionId is in the live-session map. -/
theorem auth_gates_post_messages (apiToken : Option Str) (transports : List Str)
    (freshId : Str) (req : Request) (hm : req.method = .post)
    (hp : req.path = ("/messages".toList)) :
    (∀ body, authenticate apiToken req.authorization = .unauthorized body →
      handleRequest apiToken transports freshId req = (.unauthorized body, transports))
    ∧ (authenticate apiToken req.authorization = .proceed →
      ∀ sid, req.sessionId = some sid → transports.contains sid = true →
        handleRequest apiToken transports freshId req = (.messageHandled sid, transports))
    ∧ (authenticate apiToken req.authorization = .proceed →
      sessionLive transports req.sessionId = false →
        handleRequest apiToken transports freshId req
          = (.badRequest ("No transport found for sessionId".toList), transports)) := by
  obtain ⟨m, p, auth, sid⟩ := req
  simp only at hm hp
  subst hm; subst hp
  refine ⟨?_, ?_, ?_⟩
  · intro body hbody
    simp [handleRequest, hbody]
  · intro hproceed sid' hsid hmem
    simp only at hsid
    subst hsid
    simp [handleRequest, hproceed, hmem]
    exact List.mem_of_elem_eq_true hmem
  · intro hproceed hlive
    cases sid with
    | none => simp [handleRequest, hproceed]
    | some s =>
      simp only [sessionLive] at hlive
      have hnm : s ∉ transports := by
        intro hmm
        have hc : transports.contains s = true := List.elem_eq_true_of_mem hmm
        rw [hc] at hlive
        cases hlive
      simp [handleRequest, hproceed, hlive, hnm]

/-- Claim C1 amended, witness: concrete 401 and forwarded outcomes. -/
theorem auth_gates_post_messages_w :
    handleRequest (some ("s".toList)) [("a".toList)] ("f".toList)
        ⟨.post, ("/messages".toList), none, some ("a".toList)⟩
      = (.unauthorized ("Unauthorized: No request token!".toList), [("a".toList)])
    ∧ handleRequest (some ("s".toList)) [("a".toList)] ("f".toList)
        ⟨.post, ("/messages".toList), some ("Bearer s".toList), some ("a".toList)⟩
      = (.messageHandled ("a".toList), [("a".toList)]) :=
  ⟨(auth_gates_post_messages _ _ _ _ rfl rfl).1 _ (by decide),
   (auth_gates_post_messages _ _ _ _ rfl rfl).2.1 (by decide) _ rfl (by decide)⟩

/-- Claim C5 counterexample: a `POST /messages` with an unknown sessionId
and no `Authorization` header is answered 401 by the global middleware,
not 400 — so not every unknown-session `POST /messages` yields 400. -/
theorem unknown_session_401_cex :
    (handleRequest (some ("secret".toList)) [] ("f".toList)
        ⟨.post, ("/messages".toList), none, some ("zzz".toList)⟩).1
      = .unauthorized ("Unauthorized: No request token!".toList)
    ∧ (handleRequest (some ("secret".toList)) [] ("f".toList)
        ⟨.post, ("/messages".toList), none, some ("zzz".toList)⟩).1
      ≠ .badRequest ("No transport found for sessionId".toList) := by
  decide

/-- Claim C5 amended: a `POST /messages` that passes the bearer middleware
and whose sessionId is not in the live-session map is answered 400 with
the session map unchanged (no session created, nothing forwarded); and a
sessionId is no longer live once its connection-close handler removed it. -/
theorem post_messages_unknown_session (apiToken : Option Str) (transports : List Str)
    (freshId : Str) (req : Request) (hm : req.method = .post)
    (hp : req.path = ("/messages".toList))
    (hauth : authenticate apiToken req.authorization = .proceed)
    (hlive : sessionLive transports req.sessionId = false) :
    handleRequest apiToken transports freshId req
      = (.badRequest ("No transport found for sessionId".toList), transports)
    ∧ ∀ (ts : List Str) (sid : Str), ts.Nodup →
        sessionLive (closeSession ts sid) (some sid) = false := by
  constructor
  · exact (auth_gates_post_messages apiToken transports freshId req hm hp).2.2 hauth hlive
  · intro ts sid hnd
    have hns : sid ∉ ts.erase sid := hnd.not_mem_erase
    simp only [sessionLive, closeSession]
    cases h : (ts.erase sid).contains sid with
    | false => rfl
    | true => exact absurd (List.mem_of_elem_eq_true h) hns

/-- Claim C5 amended, witness: an authenticated `POST /messages` with an
unknown sessionId gets 400 and leaves the (empty) session map unchanged. -/
theorem post_messages_unknown_session_w :
    handleRequest (some ("s".toList)) [] ("f".toList)
        ⟨.post, ("/messages".toList), some ("Bearer s".toList), some ("zzz".toList)⟩
      = (.badRequest ("No transport found for sessionId".toList), [])
    ∧ sessionLive (closeSession [("a".toList)] ("a".toList)) (some ("a".toList)) = false :=
  ⟨(post_messages_unknown_session _ _ _ _ rfl rfl (by decide) (by decide)).1,
   (post_messages_unknown_session (some ("s".toList)) [] ("f".toList)
      ⟨.post, ("/messages".toList), some ("Bearer s".toList), some ("zzz".toList)⟩
      rfl rfl (by decide) (by decide)).2 [("a".toList)] ("a".toList) (by decide)⟩

/-- Claim C2, code-bug evidence: the startup check of src/index.ts lines
9-12 makes a missing (or empty) `EXA_API_KEY` fatal before any request is
served — despite the comment on line 8 announcing the check happens "after
handling list-tools to allow listing without a key" — so discovery cannot
succeed without the credential; and the seo handler's missing-key reply
carries no `isError: true` flag. -/
theorem startup_fatal_without_exa_api_key :
    startupCheck none = .error ("EXA_API_KEY environment variable is required".toList)
    ∧ startupCheck (some []) = .error ("EXA_API_KEY environment variable is required".toList)
    ∧ (seoHandler none (.resolved (some ⟨some []⟩)) ("t".toList) []).isError = false
    ∧ (seoHandler none (.resolved (some ⟨some []⟩)) ("t".toList) []).content
      = [textBlock ("Error: Missing Exa API key. Please configure the API key in the settings.".toList)] :=
  ⟨rfl, rfl, rfl, rfl⟩

/-- Claim C3: for every registered descriptor, listing with no allow-set
configured returns it iff its `enabled` flag is true; in particular a
freshly registered descriptor is listed iff enabled. -/
theorem registry_roundtrip (r : List ToolDescriptor) (d : ToolDescriptor) :
    d ∈ register r d
    ∧ (∀ d', d' ∈ r → (d' ∈ listTools r none ↔ d'.enabled = true))
    ∧ (d ∈ listTools (register r d) none ↔ d.enabled = true) := by
  refine ⟨?_, ?_, ?_⟩
  · simp [register]
  · intro d' hd'
    simp [listTools, List.mem_filter, hd']
  · simp [listTools, register, List.mem_filter]

/-- Claim C3 witness: an enabled descriptor registered over a registry
holding a disabled one is listed, and the disabled one is not. -/
theorem registry_roundtrip_w :
    ((⟨("a".toList), ("a".toList), [], true⟩ : ToolDescriptor)
      ∈ listTools (register [⟨("b".toList), ("b".toList), [], false⟩]
          ⟨("a".toList), ("a".toList), [], true⟩) none)
    ∧ ¬ ((⟨("b".toList), ("b".toList), [], false⟩ : ToolDescriptor)
      ∈ listTools [⟨("b".toList), ("b".toList), [], false⟩] none) :=
  ⟨(registry_roundtrip [⟨("b".toList), ("b".toList), [], false⟩]
      ⟨("a".toList), ("a".toList), [], true⟩).2.2.mpr rfl,
   fun hmem => by
    have h := ((registry_roundtrip [⟨("b".toList), ("b".toList), [], false⟩]
      ⟨("a".toList), ("a".toList), [], true⟩).2.1 _ (by decide)).mp hmem
    simp at h⟩

/-- If a list is unchanged by `dropWhile p`, so is its `rdropWhile p`
image (the right-trim removes nothing from the front). -/
theorem dropWhile_rdropWhile_fix (p : Char → Bool) (l : Str)
    (h : l.dropWhile p = l) : (l.rdropWhile p).dropWhile p = l.rdropWhile p := by
  obtain ⟨t, ht⟩ := List.rdropWhile_prefix p l
  cases hr : l.rdropWhile p with
  | nil => simp
  | cons a u =>
    rw [hr] at ht
    have hl : l = a :: (u ++ t) := by rw [← ht]; simp
    have hpa : p a = false := by
      by_contra hpa
      rw [Bool.not_eq_false] at hpa
      rw [hl, List.dropWhile_cons_of_pos hpa] at h
      have hlen := congrArg List.length h
      simp only [List.length_cons] at hlen
      have hle : (List.dropWhile p (u ++ t)).length ≤ (u ++ t).length :=
        List.Sublist.length_le (List.dropWhile_sublist p)
      omega
    exact List.dropWhile_cons_of_neg (by simp [hpa])

/-- JavaScript `trim` is idempotent. -/
theorem trim_trim (l : Str) : trim (trim l) = trim l := by
  unfold trim
  rw [dropWhile_rdropWhile_fix isJsWhitespace _ (List.dropWhile_idempotent _ _),
    List.rdropWhile_idempotent]

/-- Trimming an all-whitespace string yields the empty string. -/
theorem trim_eq_nil_of_ws (l : Str) (h : ∀ c ∈ l, isJsWhitespace c = true) :
    trim l = [] := by
  rw [trim, List.rdropWhile_eq_nil_iff]
  intro x hx
  exact h x (List.dropWhile_subset _ hx)

/-- Every parsed keyword is its own trim and is nonempty. -/
theorem parseKeywords_mem {s k : Str} (hk : k ∈ parseKeywords s) :
    trim k = k ∧ k ≠ [] := by
  unfold parseKeywords at hk
  by_cases hs : s.isEmpty
  · simp [hs] at hk
  · rw [if_neg hs] at hk
    obtain ⟨hk1, hk2⟩ := List.mem_filter.mp hk
    obtain ⟨c, _, hck⟩ := List.mem_map.mp hk1
    refine ⟨by rw [← hck]; exact trim_trim c, ?_⟩
    intro hknil
    rw [hknil] at hk2
    simp at hk2

/-- Every character of every chunk produced by the splitting worker comes
from the input or the accumulator and fails the separator test; in
particular, if every input character is a separator or satisfies `q`, and
the accumulator satisfies `q`, then all chunk characters satisfy `q`. -/
theorem splitOnPredAux_chunks (p q : Char → Bool) (l : Str) :
    ∀ acc : Str, (∀ c ∈ l, p c = true ∨ q c = true) → (∀ c ∈ acc, q c = true) →
      ∀ chunk ∈ splitOnPredAux p l acc, ∀ c ∈ chunk, q c = true := by
  induction l with
  | nil =>
    intro acc _ hacc chunk hchunk c hc
    simp only [splitOnPredAux, List.mem_singleton] at hchunk
    subst hchunk
    exact hacc c (by simpa using hc)
  | cons a rest ih =>
    intro acc hl hacc chunk hchunk c hc
    by_cases hpa : p a = true
    · simp only [splitOnPredAux, hpa, if_true, List.mem_cons] at hchunk
      rcases hchunk with hchunk | hchunk
      · subst hchunk
        exact hacc c (by simpa using hc)
      · exact ih [] (fun x hx => hl x (List.mem_cons_of_mem a hx)) (by simp)
          chunk hchunk c hc
    · have hqa : q a = true := by
        rcases hl a (List.mem_cons_self a rest) with h | h
        · exact absurd h hpa
        · exact h
      simp only [splitOnPredAux, hpa, if_false, Bool.false_eq_true] at hchunk
      exact ih (a :: acc) (fun x hx => hl x (List.mem_cons_of_mem a hx))
        (fun x hx => by
          rcases List.mem_cons.mp hx with hx | hx
          · subst hx; exact hqa
          · exact hacc x hx)
        chunk hchunk c hc

/-- A keywords string consisting only of commas and whitespace parses to
the empty keyword list. -/
theorem parseKeywords_eq_nil {s : Str}
    (h : ∀ c ∈ s, c = ',' ∨ isJsWhitespace c = true) :
    parseKeywords s = [] := by
  unfold parseKeywords
  by_cases hs : s.isEmpty
  · simp [hs]
  · rw [if_neg hs, List.filter_eq_nil_iff]
    intro k hk
    obtain ⟨c, hc, hck⟩ := List.mem_map.mp hk
    have hall : ∀ x ∈ c, isJsWhitespace x = true := by
      refine splitOnPredAux_chunks (fun ch => ch == ',') isJsWhitespace s [] ?_ (by simp) c hc
      intro x hx
      rcases h x hx with hx' | hx'
      · exact Or.inl (by simp [hx'])
      · exact Or.inr hx'
    rw [← hck, trim_eq_nil_of_ws c hall]
    simp

/-- Claim C9: parsed keywords are trimmed and nonempty, and a keywords
string of only commas and whitespace behaves like an absent/empty keywords
argument — the parsed list is empty and the upstream search query is the
topic alone. -/
theorem keyword_normalization (s : Str) :
    (∀ k ∈ parseKeywords s, trim k = k ∧ k ≠ [])
    ∧ ((∀ c ∈ s, c = ',' ∨ isJsWhitespace c = true) →
      parseKeywords s = []
        ∧ ∀ topic, searchQuery topic (parseKeywords s) = topic) := by
  refine ⟨fun k hk => parseKeywords_mem hk, fun h => ?_⟩
  have hnil := parseKeywords_eq_nil h
  exact ⟨hnil, fun topic => by simp [searchQuery, hnil]⟩

/-- Claim C9 witness: a parsed keyword of `" a , b"` is trimmed and
nonempty, and `" , ,, "` parses to nothing, leaving the query `"t"`. -/
theorem keyword_normalization_w :
    (trim ("a".toList) = ("a".toList) ∧ ("a".toList) ≠ [])
    ∧ parseKeywords (" , ,, ".toList) = []
    ∧ searchQuery ("t".toList) (parseKeywords (" , ,, ".toList)) = ("t".toList) :=
  ⟨(keyword_normalization (" a , b".toList)).1 ("a".toList) (by decide),
   ((keyword_normalization (" , ,, ".toList)).2 (by decide)).1,
   ((keyword_normalization (" , ,, ".toList)).2 (by decide)).2 ("t".toList)⟩

/-- Claim C4 counterexample: at `topic = "espresso machines"`,
`keywords = ""` and an upstream resolving with zero results, the reply's
content holds two text blocks, not exactly one (lines 339-350 push a
second "Please try a different topic..." block). -/
theorem seo_zero_results_not_single_block_cex :
    (seoHandler (some ("k".toList)) (.resolved (some ⟨some []⟩))
        ("espresso machines".toList) []).content.length = 2
    ∧ (seoHandler (some ("k".toList)) (.resolved (some ⟨some []⟩))
        ("espresso machines".toList) []).content.length ≠ 1 := by
  decide

/-- Claim C4 amended: with a configured key, zero upstream results yield
exactly the two-block no-results reply whose first block's text begins
with "Unable to generate an SEO outline."; the `isError` flag stays
false. -/
theorem seo_zero_results_blocks (apiKey : Option Str) (topic keywords : Str)
    (hkey : jsTruthy apiKey = true) :
    seoHandler apiKey (.resolved (some ⟨some []⟩)) topic keywords
      = ⟨noResultsContent, false⟩
    ∧ noResultsContent.length = 2
    ∧ ("Unable to generate an SEO outline.".toList).isPrefixOf
        ((noResultsContent.headD (textBlock [])).text) = true := by
  refine ⟨?_, by decide, by decide⟩
  simp [seoHandler, hkey]

/-- Claim C4 amended, witness: the claim's own scenario. -/
theorem seo_zero_results_blocks_w :
    seoHandler (some ("k".toList)) (.resolved (some ⟨some []⟩))
        ("espresso machines".toList) []
      = ⟨noResultsContent, false⟩ :=
  (seo_zero_results_blocks (some ("k".toList)) ("espresso machines".toList) []
    (by decide)).1

/-- Claim C7: an invocation whose raw arguments fail validation returns
the validation error without entering the handler and with zero upstream
API calls; `num_results` outside `[1, 100]` and a missing `query` are such
failures. -/
theorem invalid_args_never_reach_handler (raw : RawExaSearchArgs)
    (u : ExaUpstreamOutcome) :
    (∀ issues, validateExaSearchArgs raw = .error issues →
      invokeExaSearch raw u = ⟨.validationError issues, false, 0⟩)
    ∧ (∀ n, raw.num_results = some n → ¬(1 ≤ n ∧ n ≤ 100) →
      validateExaSearchArgs raw = .error (allIssues raw)
        ∧ ("num_results".toList) ∈ allIssues raw)
    ∧ (raw.query = none →
      validateExaSearchArgs raw = .error (allIssues raw)
        ∧ ("query".toList) ∈ allIssues raw) := by
  refine ⟨?_, ?_, ?_⟩
  · intro issues hval
    simp [invokeExaSearch, hval]
  · intro n hn hbad
    have hni : numResultsIssue raw = [("num_results".toList)] := by
      simp [numResultsIssue, hn, hbad]
    have hmem : ("num_results".toList) ∈ allIssues raw := by
      simp [allIssues, hni]
    exact ⟨by simp [validateExaSearchArgs, List.ne_nil_of_mem hmem], hmem⟩
  · intro hq
    have hqi : queryIssue raw = [("query".toList)] := by simp [queryIssue, hq]
    have hmem : ("query".toList) ∈ allIssues raw := by simp [allIssues, hqi]
    exact ⟨by simp [validateExaSearchArgs, List.ne_nil_of_mem hmem], hmem⟩

/-- Claim C7 witness: `num_results = 150` is rejected without a handler
run or API call, and an absent `query` is a validation issue. -/
theorem invalid_args_never_reach_handler_w :
    invokeExaSearch
        ⟨some ("espresso".toList), none, none, some 150, none, none, none, none,
          none, none⟩ (.resolved (some []))
      = ⟨.validationError [("num_results".toList)], false, 0⟩
    ∧ ("num_results".toList) ∈ allIssues
        ⟨some ("espresso".toList), none, none, some 150, none, none, none, none,
          none, none⟩
    ∧ ("query".toList) ∈ allIssues
        ⟨none, none, none, some 5, none, none, none, none, none, none⟩ :=
  ⟨(invalid_args_never_reach_handler
      ⟨some ("espresso".toList), none, none, some 150, none, none, none, none,
        none, none⟩ (.resolved (some []))).1 [("num_results".toList)] rfl,
   ((invalid_args_never_reach_handler
      ⟨some ("espresso".toList), none, none, some 150, none, none, none, none,
        none, none⟩ (.resolved (some []))).2.1 150 rfl (by decide)).2,
   ((invalid_args_never_reach_handler
      ⟨none, none, none, some 5, none, none, none, none, none, none⟩
      (.resolved (some []))).2.2 rfl).2⟩

/-- Claim C8 counterexample: a malformed upstream body (resolved `data`
with no `results` array) makes the seo handler answer with the no-results
text but `isError = false`, not `isError = true` as claimed for upstream
failures. -/
theorem seo_malformed_body_not_isError_cex :
    (seoHandler (some ("k".toList)) (.resolved (some ⟨none⟩)) ("t".toList) []).isError
      = false
    ∧ ¬ (seoHandler (some ("k".toList)) (.resolved (some ⟨none⟩)) ("t".toList) []).isError
      = true := by
  decide

/-- Claim C8 amended: both handlers always return a result with nonempty
content (they never raise to the protocol layer); a rejected upstream call
is flagged `isError = true` by both, and `exa_search` also flags a
malformed body (its caught TypeError); but the seo handler surfaces a
malformed body as a plain no-results reply with `isError = false`. -/
theorem handlers_total_and_error_surfacing (args : ExaSearchArgs)
    (u : ExaUpstreamOutcome) (key : Option Str) (su : SeoUpstreamOutcome)
    (topic keywords : Str) :
    (exaSearchHandler args u).content ≠ []
    ∧ (seoHandler key su topic keywords).content ≠ []
    ∧ (∀ m, u = .rejected m → (exaSearchHandler args u).isError = true)
    ∧ (u = .resolved none → (exaSearchHandler args u).isError = true)
    ∧ (∀ m, su = .rejected m → jsTruthy key = true →
      (seoHandler key su topic keywords).isError = true)
    ∧ (su = .resolved (some ⟨none⟩) → jsTruthy key = true →
      seoHandler key su topic keywords = ⟨noResultsContent, false⟩) := by
  refine ⟨?_, ?_, ?_, ?_, ?_, ?_⟩
  · cases u with
    | rejected m => simp [exaSearchHandler]
    | resolved r =>
      cases r with
      | none => simp [exaSearchHandler]
      | some results => by_cases h : results.isEmpty <;> simp [exaSearchHandler, h]
  · cases hk : jsTruthy key with
    | false => simp [seoHandler, hk]
    | true =>
      cases su with
      | rejected m => simp [seoHandler, hk]
      | resolved data =>
        cases data with
        | none => simp [seoHandler, hk, noResultsContent]
        | some d =>
          cases hd : d.results with
          | none => simp [seoHandler, hk, hd, noResultsContent]
          | some results =>
            by_cases hres : results.isEmpty <;>
              simp [seoHandler, hk, hd, hres, noResultsContent]
  · intro m hm; subst hm; simp [exaSearchHandler]
  · intro hm; subst hm; simp [exaSearchHandler]
  · intro m hm hkey; subst hm; simp [seoHandler, hkey]
  · intro hm hkey; subst hm; simp [seoHandler, hkey]

/-- Claim C8 amended, witness: concrete rejected and malformed upstream
outcomes for both handlers. -/
theorem handlers_total_and_error_surfacing_w :
    (exaSearchHandler
        ⟨("q".toList), ("general".toList), ("auto".toList), 5, none, none, none,
          none, ("always".toList), 3000⟩ (.rejected ("boom".toList))).isError = true
    ∧ (seoHandler (some ("k".toList)) (.rejected ("boom".toList)) ("t".toList) []).isError
      = true
    ∧ seoHandler (some ("k".toList)) (.resolved (some ⟨none⟩)) ("t".toList) []
      = ⟨noResultsContent, false⟩ :=
  ⟨(handlers_total_and_error_surfacing
      ⟨("q".toList), ("general".toList), ("auto".toList), 5, none, none, none,
        none, ("always".toList), 3000⟩ (.rejected ("boom".toList))
      (some ("k".toList)) (.rejected ("boom".toList)) ("t".toList) []).2.2.1
      ("boom".toList) rfl,
   (handlers_total_and_error_surfacing
      ⟨("q".toList), ("general".toList), ("auto".toList), 5, none, none, none,
        none, ("always".toList), 3000⟩ (.rejected ("boom".toList))
      (some ("k".toList)) (.rejected ("boom".toList)) ("t".toList) []).2.2.2.2.1
      ("boom".toList) rfl (by decide),
   (handlers_total_and_error_surfacing
      ⟨("q".toList), ("general".toList), ("auto".toList), 5, none, none, none,
        none, ("always".toList), 3000⟩ (.rejected ("boom".toList))
      (some ("k".toList)) (.resolved (some ⟨none⟩)) ("t".toList) []).2.2.2.2.2
      rfl (by decide)⟩

/-- Splitting distributes over an occurrence of a separator character. -/
theorem splitOnPredAux_append (p : Char → Bool) (c0 : Char) (hp : p c0 = true)
    (v : Str) : ∀ u acc : Str,
    splitOnPredAux p (u ++ c0 :: v) acc
      = splitOnPredAux p u acc ++ splitOnPredAux p v [] := by
  intro u
  induction u with
  | nil =>
    intro acc
    simp [splitOnPredAux, hp]
  | cons b u' ih =>
    intro acc
    by_cases hb : p b
    · simp [splitOnPredAux, hb, ih]
    · simp [splitOnPredAux, hb, ih]

/-- Splitting a separator-free string yields one chunk. -/
theorem splitOnPredAux_no_sep (p : Char → Bool) : ∀ l acc : Str,
    (∀ c ∈ l, p c = false) → splitOnPredAux p l acc = [acc.reverse ++ l] := by
  intro l
  induction l with
  | nil => intro acc _; simp [splitOnPredAux]
  | cons b t ih =>
    intro acc h
    have hb : p b = false := h b (List.mem_cons_self _ _)
    rw [splitOnPredAux]
    simp only [hb, Bool.false_eq_true, if_false]
    rw [ih (b :: acc) (fun c hc => h c (List.mem_cons_of_mem _ hc))]
    simp

/-- A newline-free string is a single line. -/
theorem splitLines_single (l : Str) (h : ∀ c ∈ l, (c == '\n') = false) :
    splitLines l = [l] :=
  splitOnPredAux_no_sep _ l [] h

/-- The empty string is the single empty line. -/
theorem splitLines_nil : splitLines ([] : Str) = [([] : Str)] := rfl

/-- The lines of a `join("\n")` are the concatenated lines of the parts. -/
theorem splitLines_joinNl (comps : List Str) (hne : comps ≠ []) :
    splitLines (joinNl comps) = (comps.map splitLines).join := by
  induction comps with
  | nil => exact absurd rfl hne
  | cons x rest ih =>
    cases rest with
    | nil =>
      show splitLines x = (List.map splitLines [x]).join
      simp
    | cons y rest' =>
      have h2 := ih (List.cons_ne_nil _ _)
      have h1 : splitLines (x ++ '\n' :: joinNl (y :: rest'))
          = splitLines x ++ splitLines (joinNl (y :: rest')) :=
        splitOnPredAux_append (fun c => c == '\n') '\n' (by decide) _ x []
      have hj : joinNl (x :: y :: rest') = x ++ '\n' :: joinNl (y :: rest') := by
        show x ++ ['\n'] ++ joinSep ['\n'] (y :: rest') = x ++ '\n' :: joinNl (y :: rest')
        rw [List.append_assoc]
        rfl
      rw [hj, h1, h2]
      simp

/-- Joining singleton lists flattens to the original list. -/
theorem join_map_singleton (l : List Str) : (l.map (fun a => [a])).join = l := by
  induction l with
  | nil => rfl
  | cons x t ih => simp [ih]

/-- When every part is newline-free, the lines of the `join("\n")` are
exactly the parts. -/
theorem splitLines_joinNl_lines (comps : List Str) (hne : comps ≠ [])
    (h : ∀ x ∈ comps, ∀ c ∈ x, (c == '\n') = false) :
    splitLines (joinNl comps) = comps := by
  rw [splitLines_joinNl comps hne]
  have hmap : comps.map splitLines = comps.map (fun a => [a]) :=
    List.map_congr_left (fun x hx => splitLines_single x (h x hx))
  rw [hmap, join_map_singleton]

/-- `join(sep)` of a nonempty list with one element appended. -/
theorem joinSep_concat (sep a : Str) : ∀ (x : Str) (l : List Str),
    joinSep sep ((x :: l) ++ [a]) = joinSep sep (x :: l) ++ sep ++ a := by
  intro x l
  induction l generalizing x with
  | nil => rfl
  | cons y rest ih =>
    have h1 : joinSep sep ((x :: y :: rest) ++ [a])
        = x ++ sep ++ joinSep sep ((y :: rest) ++ [a]) := rfl
    rw [h1, ih y]
    simp [joinSep, List.append_assoc]

/-- Lists with different head characters differ. -/
theorem head_ne_of_cons (a b : Char) (x y : Str) (hab : a ≠ b) :
    (a :: x : Str) ≠ b :: y := by
  intro he
  injection he with h1 _
  exact hab h1

/-- A section line `"## " ++ sec` is never the empty line. -/
theorem sec_line_ne_nil (sec : Str) : (("## ".toList) ++ sec) ≠ ([] : Str) := by
  intro h
  exact List.cons_ne_nil _ _ h

/-- Prepending a common prefix preserves inequality. -/
theorem append_left_ne (pre : Str) {x y : Str} (h : x ≠ y) : pre ++ x ≠ pre ++ y :=
  fun he => h (List.append_cancel_left he)

/-- A string not containing the newline character is newline-free in the
boolean sense used by the splitting lemmas. -/
theorem noNl_of_not_mem {x : Str} (h : '\n' ∉ x) :
    ∀ c ∈ x, (c == '\n') = false := by
  intro c hc
  rw [beq_eq_false_iff_ne]
  intro he
  exact h (he ▸ hc)

/-- Newline-freeness is preserved by concatenation. -/
theorem noNl_append {x y : Str} (hx : ∀ c ∈ x, (c == '\n') = false)
    (hy : ∀ c ∈ y, (c == '\n') = false) :
    ∀ c ∈ x ++ y, (c == '\n') = false := by
  intro c hc
  rcases List.mem_append.mp hc with h | h
  · exact hx c h
  · exact hy c h

/-- Members of an indexed map come from the underlying list. -/
theorem mapWithIndex_mem {f : Nat → α → β} {b : β} :
    ∀ {i : Nat} {l : List α}, b ∈ mapWithIndex f i l → ∃ j a, a ∈ l ∧ b = f j a := by
  intro i l
  induction l generalizing i with
  | nil => intro hb; simp [mapWithIndex] at hb
  | cons x t ih =>
    intro hb
    simp only [mapWithIndex, List.mem_cons] at hb
    rcases hb with hb | hb
    · exact ⟨i, x, List.mem_cons_self _ _, hb⟩
    · obtain ⟨j, a, ha, hba⟩ := ih hb
      exact ⟨j, a, List.mem_cons_of_mem _ ha, hba⟩

/-- The generated outline is the newline-join of its component list. -/
theorem generateSEOOutline_def (topic : Str) (ki : KeyInsights) (kw : List Str) :
    generateSEOOutline topic ki kw = joinNl (outlineComponents topic ki) := rfl

/-- No `"## " ++ sec` line occurs in the assembled outline, provided the
topic, the used section headings and the common phrases are newline-free,
no used heading equals `sec`, and `sec` is not the introduction or
conclusion heading.  (The keywords and FAQ sections are computed but not
joined into the outline.) -/
theorem outline_no_section_line (topic : Str) (ki : KeyInsights) (sec : Str)
    (hnl : '\n' ∉ topic)
    (hheads : ∀ h ∈ ki.potentialHeadings.take 5, '\n' ∉ h ∧ h ≠ sec)
    (hphs : ∀ ph ∈ ki.commonPhrases, '\n' ∉ ph)
    (hsec1 : ("## ".toList) ++ sec ≠ ("## Introduction".toList))
    (hsec2 : ("## ".toList) ++ sec ≠ ("## Conclusion".toList)) :
    (("## ".toList) ++ sec) ∉ splitLines (joinNl (outlineComponents topic ki)) := by
  intro htgt
  rw [splitLines_joinNl _ (by simp [outlineComponents])] at htgt
  rw [List.mem_join] at htgt
  obtain ⟨ls, hls, hmem⟩ := htgt
  rw [List.mem_map] at hls
  obtain ⟨comp, hcomp, rfl⟩ := hls
  simp only [outlineComponents, List.mem_append, List.mem_cons, List.mem_singleton,
    List.not_mem_nil, or_false, false_or, or_assoc] at hcomp
  rcases hcomp with h | h | h | h | h | h | h | h | h
  · -- comp = titleLine topic
    subst h
    have hline : splitLines (titleLine topic) = [titleLine topic] :=
      splitLines_single _ (noNl_append (by decide) (noNl_of_not_mem hnl))
    rw [hline, List.mem_singleton] at hmem
    have h1 : ('#' :: '#' :: ' ' :: sec : Str)
        = '#' :: ' ' :: (("Comprehensive SEO Content Outline: ".toList) ++ topic) := hmem
    injection h1 with _ h2
    injection h2 with h3 _
    exact absurd h3 (by decide)
  · -- comp = []
    subst h
    rw [splitLines_nil, List.mem_singleton] at hmem
    exact sec_line_ne_nil sec hmem
  · -- comp = introductionSection topic
    subst h
    have hlines : splitLines (introductionSection topic)
        = [("## Introduction".toList), ([] : Str),
           ("- Brief overview of ".toList) ++ topic,
           ("- Why ".toList) ++ topic ++ (" is important/relevant".toList),
           ("- What readers will learn from this content".toList), ([] : Str)] := by
      refine splitLines_joinNl_lines _ (List.cons_ne_nil _ _) ?_
      intro x hx
      simp only [List.mem_cons, List.not_mem_nil, or_false] at hx
      rcases hx with rfl | rfl | rfl | rfl | rfl | rfl
      · decide
      · decide
      · exact noNl_append (by decide) (noNl_of_not_mem hnl)
      · exact noNl_append (noNl_append (by decide) (noNl_of_not_mem hnl)) (by decide)
      · decide
      · decide
    rw [hlines] at hmem
    simp only [List.mem_cons, List.not_mem_nil, or_false] at hmem
    rcases hmem with h | h | h | h | h | h
    · exact hsec1 h
    · exact sec_line_ne_nil sec h
    · exact head_ne_of_cons '#' '-' _ _ (by decide) h
    · exact head_ne_of_cons '#' '-' _ _ (by decide) h
    · exact head_ne_of_cons '#' '-' _ _ (by decide) h
    · exact sec_line_ne_nil sec h
  · -- comp ∈ mainSectionsOf ki
    obtain ⟨j, hd, hhd, hcomp'⟩ := mapWithIndex_mem h
    subst hcomp'
    obtain ⟨hnlh, hne_sec⟩ := hheads hd hhd
    have hlines : splitLines (joinNl ((("## ".toList) ++ hd) :: ([] : Str) ::
        (((ki.commonPhrases.drop (j * 3)).take 3).map
          (fun ph => ("- ".toList) ++ ph) ++ [([] : Str)])))
        = (("## ".toList) ++ hd) :: ([] : Str) ::
        (((ki.commonPhrases.drop (j * 3)).take 3).map
          (fun ph => ("- ".toList) ++ ph) ++ [([] : Str)]) := by
      refine splitLines_joinNl_lines _ (List.cons_ne_nil _ _) ?_
      intro x hx
      rcases List.mem_cons.mp hx with rfl | hx
      · exact noNl_append (by decide) (noNl_of_not_mem hnlh)
      rcases List.mem_cons.mp hx with rfl | hx
      · exact fun c hc => absurd hc (List.not_mem_nil c)
      rcases List.mem_append.mp hx with hx | hx
      · obtain ⟨ph, hph, rfl⟩ := List.mem_map.mp hx
        have hphm : ph ∈ ki.commonPhrases :=
          List.drop_subset _ _ (List.take_subset _ _ hph)
        exact noNl_append (by decide) (noNl_of_not_mem (hphs ph hphm))
      · rw [List.mem_singleton] at hx
        subst hx
        exact fun c hc => absurd hc (List.not_mem_nil c)
    have hmem' : (("## ".toList) ++ sec) ∈ (("## ".toList) ++ hd) :: ([] : Str) ::
        (((ki.commonPhrases.drop (j * 3)).take 3).map
          (fun ph => ("- ".toList) ++ ph) ++ [([] : Str)]) := by
      rw [← hlines]
      exact hmem
    rcases List.mem_cons.mp hmem' with h1 | hmem2
    · exact hne_sec (List.append_cancel_left h1).symm
    rcases List.mem_cons.mp hmem2 with h1 | hmem3
    · exact sec_line_ne_nil sec h1
    rcases List.mem_append.mp hmem3 with h1 | h1
    · obtain ⟨ph, _, h2⟩ := List.mem_map.mp h1
      exact head_ne_of_cons '-' '#' _ _ (by decide) h2
    · rw [List.mem_singleton] at h1
      exact sec_line_ne_nil sec h1
  · -- comp = conclusionSection topic
    subst h
    have hlines : splitLines (conclusionSection topic)
        = [("## Conclusion".toList), ([] : Str),
           ("- Summary of key points about ".toList) ++ topic,
           ("- Final thoughts on ".toList) ++ topic,
           ("- Call to action or next steps".toList), ([] : Str)] := by
      refine splitLines_joinNl_lines _ (List.cons_ne_nil _ _) ?_
      intro x hx
      simp only [List.mem_cons, List.not_mem_nil, or_false] at hx
      rcases hx with rfl | rfl | rfl | rfl | rfl | rfl
      · decide
      · decide
      · exact noNl_append (by decide) (noNl_of_not_mem hnl)
      · exact noNl_append (by decide) (noNl_of_not_mem hnl)
      · decide
      · decide
    rw [hlines] at hmem
    simp only [List.mem_cons, List.not_mem_nil, or_false] at hmem
    rcases hmem with h | h | h | h | h | h
    · exact hsec2 h
    · exact sec_line_ne_nil sec h
    · exact head_ne_of_cons '#' '-' _ _ (by decide) h
    · exact head_ne_of_cons '#' '-' _ _ (by decide) h
    · exact head_ne_of_cons '#' '-' _ _ (by decide) h
    · exact sec_line_ne_nil sec h
  · -- comp = []
    subst h
    rw [splitLines_nil, List.mem_singleton] at hmem
    exact sec_line_ne_nil sec hmem
  · -- comp = "---"
    subst h
    have hline : splitLines ("---".toList) = [("---".toList)] :=
      splitLines_single _ (by decide)
    rw [hline, List.mem_singleton] at hmem
    exact head_ne_of_cons '#' '-' _ _ (by decide) hmem
  · -- comp = []
    subst h
    rw [splitLines_nil, List.mem_singleton] at hmem
    exact sec_line_ne_nil sec hmem
  · -- comp = attributionLine topic
    subst h
    have hline : splitLines (attributionLine topic) = [attributionLine topic] :=
      splitLines_single _
        (noNl_append (noNl_append (by decide) (noNl_of_not_mem hnl)) (by decide))
    rw [hline, List.mem_singleton] at hmem
    exact head_ne_of_cons '#' '*' _ _ (by decide) hmem

/-- Claim C10 counterexample: an upstream result whose title is
`"Target Keywords: Complete Guide"` makes the extracted heading
`"Target Keywords"` a main section, so the (single-block) outline does
contain a `"## Target Keywords"` line — the claimed "never contains a
Target Keywords section" fails on such inputs. -/
theorem outline_target_keywords_line_cex :
    ("## Target Keywords".toList) ∈ splitLines
      (((seoHandler (some ("k".toList))
          (.resolved (some ⟨some [⟨("Target Keywords: Complete Guide".toList),
            ("Some text about keyword research".toList), ("u".toList)⟩]⟩))
          ("coffee".toList) []).content.headD (textBlock [])).text)
    ∧ (seoHandler (some ("k".toList))
        (.resolved (some ⟨some [⟨("Target Keywords: Complete Guide".toList),
          ("Some text about keyword research".toList), ("u".toList)⟩]⟩))
        ("coffee".toList) []).content.length = 1 := by
  decide

/-- Claim C10 amended: for every nonempty upstream result set the success
reply is the single text block holding the generated outline; every
outline begins with the `"# Comprehensive SEO Content Outline: <topic>"`
line and ends with the attribution line naming the topic; and — provided
the topic, the used headings and phrases are newline-free and no used
heading is itself `"Target Keywords"` or `"Frequently Asked Questions"` —
the outline contains no `"## Target Keywords"` or
`"## Frequently Asked Questions"` line, the computed keywords and FAQ
sections not being part of the assembly. -/
theorem seo_outline_structure (key : Option Str) (results : List ExaSearchResult)
    (topic keywords : Str) (ki : KeyInsights) (kw : List Str)
    (hkey : jsTruthy key = true) (hres : results ≠ []) :
    seoHandler key (.resolved (some ⟨some results⟩)) topic keywords
      = ⟨[textBlock (generateSEOOutline topic (analyzeSearchResults results)
          (parseKeywords keywords))], false⟩
    ∧ (titleLine topic ++ ['\n']).isPrefixOf (generateSEOOutline topic ki kw) = true
    ∧ ('\n' :: attributionLine topic).isSuffixOf (generateSEOOutline topic ki kw) = true
    ∧ ('\n' ∉ topic →
      (∀ h ∈ ki.potentialHeadings.take 5,
        '\n' ∉ h ∧ h ≠ ("Target Keywords".toList)
          ∧ h ≠ ("Frequently Asked Questions".toList)) →
      (∀ ph ∈ ki.commonPhrases, '\n' ∉ ph) →
      ("## Target Keywords".toList) ∉ splitLines (generateSEOOutline topic ki kw)
        ∧ ("## Frequently Asked Questions".toList)
            ∉ splitLines (generateSEOOutline topic ki kw)) := by
  refine ⟨?_, ?_, ?_, ?_⟩
  · cases results with
    | nil => exact absurd rfl hres
    | cons r rs => simp [seoHandler, hkey]
  · rw [generateSEOOutline_def, List.isPrefixOf_iff_prefix]
    have hj : joinNl (outlineComponents topic ki)
        = (titleLine topic ++ ['\n']) ++ joinNl (([] : Str) ::
          ([introductionSection topic] ++ mainSectionsOf ki ++
            [conclusionSection topic, [], ("---".toList), [], attributionLine topic])) := rfl
    rw [hj]
    exact List.prefix_append _ _
  · rw [generateSEOOutline_def, List.isSuffixOf_iff_suffix]
    have hassoc : outlineComponents topic ki
        = (titleLine topic :: ([] : Str) :: ([introductionSection topic] ++
            mainSectionsOf ki ++ [conclusionSection topic, [], ("---".toList), []]))
          ++ [attributionLine topic] := by
      simp [outlineComponents, List.append_assoc]
    rw [hassoc]
    show ('\n' :: attributionLine topic) <:+ joinSep ['\n'] _
    rw [joinSep_concat]
    rw [List.append_assoc]
    exact List.suffix_append _ _
  · intro hnl hheads hphs
    rw [generateSEOOutline_def]
    constructor
    · exact outline_no_section_line topic ki ("Target Keywords".toList) hnl
        (fun h hh => ⟨(hheads h hh).1, (hheads h hh).2.1⟩) hphs (by decide) (by decide)
    · exact outline_no_section_line topic ki ("Frequently Asked Questions".toList) hnl
        (fun h hh => ⟨(hheads h hh).1, (hheads h hh).2.2⟩) hphs (by decide) (by decide)

/-- Claim C10 amended, witness: a concrete nonempty result set whose
extracted headings are benign — the reply is the single outline block and
no keywords/FAQ section line occurs. -/
theorem seo_outline_structure_w :
    seoHandler (some ("k".toList))
        (.resolved (some ⟨some [⟨("Espresso Basics - A Guide".toList),
          ("Some text about espresso brewing".toList), ("u".toList)⟩]⟩))
        ("coffee".toList) []
      = ⟨[textBlock (generateSEOOutline ("coffee".toList)
          (analyzeSearchResults [⟨("Espresso Basics - A Guide".toList),
            ("Some text about espresso brewing".toList), ("u".toList)⟩])
          (parseKeywords []))], false⟩
    ∧ ("## Target Keywords".toList) ∉ splitLines
        (generateSEOOutline ("coffee".toList)
          (analyzeSearchResults [⟨("Espresso Basics - A Guide".toList),
            ("Some text about espresso brewing".toList), ("u".toList)⟩]) []) :=
  ⟨(seo_outline_structure (some ("k".toList))
      [⟨("Espresso Basics - A Guide".toList),
        ("Some text about espresso brewing".toList), ("u".toList)⟩]
      ("coffee".toList) []
      (analyzeSearchResults [⟨("Espresso Basics - A Guide".toList),
        ("Some text about espresso brewing".toList), ("u".toList)⟩]) []
      (by decide) (by decide)).1,
   ((seo_outline_structure (some ("k".toList))
      [⟨("Espresso Basics - A Guide".toList),
        ("Some text about espresso brewing".toList), ("u".toList)⟩]
      ("coffee".toList) []
      (analyzeSearchResults [⟨("Espresso Basics - A Guide".toList),
        ("Some text about espresso brewing".toList), ("u".toList)⟩]) []
      (by decide) (by decide)).2.2.2 (by decide) (by decide) (by decide)).1⟩

end ExaMcp
